import Mathlib

/-!
Verification of the review-image-generator service: a shallow embedding of
the review store, ingestion pipeline, poll scheduler, render-cache and HTTP
webhook/import surface, with theorems settling the specification claims.

Machine integers are modelled as `Nat`/`Int` with explicit reduction
modulo `2 ^ 32` where the source relies on 32-bit wraparound (SHA-256).
JavaScript strings are modelled as Lean `String`; byte strings as
`List Nat` (each entry `< 256`).  All definitions are executable.
-/

namespace RIG

/-- Bytes of a string, one byte per character.  The source hashes UTF-8
bytes; every string fed to a hash in this development is ASCII, where the
UTF-8 bytes coincide with the code points. -/
def strBytes (s : String) : List Nat :=
  s.data.map (fun c => c.toNat)

/-- `pre` is an initial segment of `s` (character-wise). -/
def strStartsWith (s pre : String) : Bool :=
  pre.data.isPrefixOf s.data

/-- JavaScript `String.prototype.trim`: strip ASCII whitespace from both
ends (the inputs in this development only ever carry spaces/tabs/CR/LF). -/
def isWsChar (c : Char) : Bool :=
  c = ' ' || c = '\t' || c = '\n' || c = '\r'

def strTrim (s : String) : String :=
  String.mk (((s.data.dropWhile isWsChar).reverse.dropWhile isWsChar).reverse)

/-- Replace the first occurrence of the (non-empty) pattern `pat` in the
character list, as JavaScript `String.prototype.replace` with a string
pattern does.  The replacement text is spliced literally. -/
def replaceFirstChars (pat rep : List Char) : List Char → List Char
  | [] => []
  | c :: cs =>
    if pat ≠ [] ∧ pat.isPrefixOf (c :: cs) then
      rep ++ (c :: cs).drop pat.length
    else
      c :: replaceFirstChars pat rep cs

/-- Replace every occurrence of the (non-empty) pattern, scanning left to
right and continuing after each replacement, as `.replace(/pat/g, rep)`
does for a pattern without metacharacters. -/
def replaceAllChars (pat rep : List Char) : Nat → List Char → List Char
  | _, [] => []
  | 0, s => s
  | fuel + 1, c :: cs =>
    if pat ≠ [] ∧ pat.isPrefixOf (c :: cs) then
      rep ++ replaceAllChars pat rep fuel ((c :: cs).drop pat.length)
    else
      c :: replaceAllChars pat rep fuel cs

def replaceFirst (s pat rep : String) : String :=
  String.mk (replaceFirstChars pat.data rep.data s.data)

def replaceAll (s pat rep : String) : String :=
  String.mk (replaceAllChars pat.data rep.data s.data.length s.data)

/-- `escapeHtml` from the server source: five sequential global
replacements, ampersand first. -/
def escapeHtml (str : String) : String :=
  replaceAll (replaceAll (replaceAll (replaceAll (replaceAll
    str "&" "&amp;") "<" "&lt;") ">" "&gt;") "\"" "&quot;") "\x27" "&#39;"

-- ---------------------------------------------------------------------------
-- SHA-256 (FIPS 180-4) over byte lists, 32-bit words as `Nat` mod 2^32.
-- ---------------------------------------------------------------------------

namespace SHA256

def w32 (n : Nat) : Nat := n % 4294967296

def bxor (a b : Nat) : Nat := Nat.xor a b

def band (a b : Nat) : Nat := Nat.land a b

def bnot32 (a : Nat) : Nat := 4294967295 - a

/-- Right rotation of a 32-bit word. -/
def rotr (n x : Nat) : Nat := w32 ((x >>> n) ||| (x <<< (32 - n)))

def bigSigma0 (x : Nat) : Nat := bxor (bxor (rotr 2 x) (rotr 13 x)) (rotr 22 x)

def bigSigma1 (x : Nat) : Nat := bxor (bxor (rotr 6 x) (rotr 11 x)) (rotr 25 x)

def smallSigma0 (x : Nat) : Nat := bxor (bxor (rotr 7 x) (rotr 18 x)) (x >>> 3)

def smallSigma1 (x : Nat) : Nat := bxor (bxor (rotr 17 x) (rotr 19 x)) (x >>> 10)

def ch (x y z : Nat) : Nat := bxor (band x y) (band (bnot32 x) z)

def maj (x y z : Nat) : Nat := bxor (bxor (band x y) (band x z)) (band y z)

/-- The 64 round constants of FIPS 180-4 §4.2.2, in decimal. -/
def K : List Nat :=
  [1116352408, 1899447441, 3049323471, 3921009573, 961987163,
   1508970993, 2453635748, 2870763221, 3624381080, 310598401,
   607225278, 1426881987, 1925078388, 2162078206, 2614888103,
   3248222580, 3835390401, 4022224774, 264347078, 604807628,
   770255983, 1249150122, 1555081692, 1996064986, 2554220882,
   2821834349, 2952996808, 3210313671, 3336571891, 3584528711,
   113926993, 338241895, 666307205, 773529912, 1294757372,
   1396182291, 1695183700, 1986661051, 2177026350, 2456956037,
   2730485921, 2820302411, 3259730800, 3345764771, 3516065817,
   3600352804, 4094571909, 275423344, 430227734, 506948616,
   659060556, 883997877, 958139571, 1322822218, 1537002063,
   1747873779, 1955562222, 2024104815, 2227730452, 2361852424,
   2428436474, 2756734187, 3204031479, 3329325298]

/-- The initial hash value of FIPS 180-4 §5.3.3, in decimal. -/
def H0 : List Nat :=
  [1779033703, 3144134277, 1013904242, 2773480762,
   1359893119, 2600822924, 528734635, 1541459225]

/-- Pad a message (list of bytes) to a multiple of 64 bytes: append 0x80,
zero bytes, then the 64-bit big-endian bit length. -/
def pad (msg : List Nat) : List Nat :=
  let L := msg.length
  let zeros := (64 - ((L + 9) % 64)) % 64
  let bitLen := L * 8
  msg ++ [0x80] ++ List.replicate zeros 0 ++
    [(bitLen >>> 56) % 256, (bitLen >>> 48) % 256, (bitLen >>> 40) % 256,
     (bitLen >>> 32) % 256, (bitLen >>> 24) % 256, (bitLen >>> 16) % 256,
     (bitLen >>> 8) % 256, bitLen % 256]

/-- Group bytes into big-endian 32-bit words. -/
def toWords : List Nat → List Nat
  | b0 :: b1 :: b2 :: b3 :: rest =>
    (((b0 * 256 + b1) * 256 + b2) * 256 + b3) :: toWords rest
  | _ => []

/-- Split a word list into 16-word blocks (structural recursion). -/
def toBlocks : List Nat → List (List Nat)
  | w0 :: w1 :: w2 :: w3 :: w4 :: w5 :: w6 :: w7 ::
    w8 :: w9 :: w10 :: w11 :: w12 :: w13 :: w14 :: w15 :: rest =>
    [w0, w1, w2, w3, w4, w5, w6, w7, w8, w9, w10, w11, w12, w13, w14, w15] ::
      toBlocks rest
  | _ => []

/-- Extend a 16-word block to the 64-entry message schedule. -/
def schedule (block : List Nat) : Array Nat :=
  (List.range 48).foldl
    (fun a j =>
      let i := j + 16
      a.push (w32 (smallSigma1 (a.getD (i - 2) 0) + a.getD (i - 7) 0 +
        smallSigma0 (a.getD (i - 15) 0) + a.getD (i - 16) 0)))
    block.toArray

/-- One round of the compression loop. -/
def round (st : Nat × Nat × Nat × Nat × Nat × Nat × Nat × Nat) (kw : Nat × Nat) :
    Nat × Nat × Nat × Nat × Nat × Nat × Nat × Nat :=
  let (a, b, c, d, e, f, g, h) := st
  let (k, w) := kw
  let t1 := w32 (h + bigSigma1 e + ch e f g + k + w)
  let t2 := w32 (bigSigma0 a + maj a b c)
  (w32 (t1 + t2), a, b, c, w32 (d + t1), e, f, g)

/-- Compress one 16-word block into the running hash (8 words). -/
def compress (hs : List Nat) (block : List Nat) : List Nat :=
  let ws := (schedule block).toList
  match hs with
  | [h0, h1, h2, h3, h4, h5, h6, h7] =>
    let (a, b, c, d, e, f, g, h) :=
      (K.zip ws).foldl round (h0, h1, h2, h3, h4, h5, h6, h7)
    [w32 (h0 + a), w32 (h1 + b), w32 (h2 + c), w32 (h3 + d),
     w32 (h4 + e), w32 (h5 + f), w32 (h6 + g), w32 (h7 + h)]
  | _ => hs

/-- SHA-256 digest of a byte list, as 32 bytes. -/
def digestBytes (msg : List Nat) : List Nat :=
  let hs := (toBlocks (toWords (pad msg))).foldl compress H0
  hs.foldr (fun w acc =>
    (w >>> 24) % 256 :: (w >>> 16) % 256 :: (w >>> 8) % 256 :: w % 256 :: acc) []

def hexDigit (n : Nat) : Char :=
  if n < 10 then Char.ofNat (48 + n) else Char.ofNat (87 + n)

/-- Lowercase hex rendering of a byte list. -/
def toHex (bs : List Nat) : String :=
  String.mk (bs.foldr (fun b acc => hexDigit (b / 16) :: hexDigit (b % 16) :: acc) [])

/-- Hex digest of a byte list, the shape `crypto.createHash("sha256")
... .digest("hex")` produces. -/
def hexDigest (msg : List Nat) : String :=
  toHex (digestBytes msg)

/-- HMAC-SHA256 (RFC 2104) with block size 64; the key is used directly
(all keys in this development are shorter than 64 bytes). -/
def hmac (key msg : List Nat) : List Nat :=
  let k0 := key ++ List.replicate (64 - key.length) 0
  let ipad := k0.map (fun b => Nat.xor b 0x36)
  let opad := k0.map (fun b => Nat.xor b 0x5c)
  digestBytes (opad ++ digestBytes (ipad ++ msg))

def hmacHex (key msg : List Nat) : String := toHex (hmac key msg)

end SHA256

/-- Hex SHA-256 of a string, the form the source uses everywhere. -/
def sha256Hex (s : String) : String := SHA256.hexDigest (strBytes s)

-- ---------------------------------------------------------------------------
-- JSON values (the shape of `req.body` and of adapter payloads).
-- ---------------------------------------------------------------------------

/-- A JSON value.  Object fields keep their textual order, as JavaScript
objects keep insertion order — `JSON.stringify` is order-sensitive. -/
inductive Json where
  | null
  | bool (b : Bool)
  | num (n : Int)
  | str (s : String)
  | arr (elems : List Json)
  | obj (fields : List (String × Json))

/-- An opening brace as text. -/
def lb : String := "\x7b"

/-- A closing brace as text. -/
def rb : String := "\x7d"

def commaSep : List String → String
  | [] => ""
  | [x] => x
  | x :: xs => x ++ "," ++ commaSep xs

/-- `JSON.stringify` without indentation, on the modelled value space
(strings that need no escaping — every string in this development is
escape-free).  Structured over an explicit depth fuel so that it reduces
inside the kernel; `stringifyFuel` exceeds the depth of every value that
appears in this development. -/
def stringifyF : Nat → Json → String
  | _, .null => "null"
  | _, .bool true => "true"
  | _, .bool false => "false"
  | _, .num n => toString n
  | _, .str s => "\"" ++ s ++ "\""
  | 0, _ => ""
  | fuel + 1, .arr xs => "[" ++ commaSep (xs.map (stringifyF fuel)) ++ "]"
  | fuel + 1, .obj fs =>
    lb ++ commaSep (fs.map (fun kv => "\"" ++ kv.1 ++ "\":" ++ stringifyF fuel kv.2)) ++ rb

def stringifyFuel : Nat := 1000

def stringify (j : Json) : String := stringifyF stringifyFuel j

/-- JavaScript truthiness of a value (a missing property, `undefined`,
is handled by the `Option Json` layer around lookups). -/
def truthy : Json → Bool
  | .null => false
  | .bool b => b
  | .num n => n ≠ 0
  | .str s => s ≠ ""
  | .arr _ => true
  | .obj _ => true

/-- Truthiness of a possibly-missing value. -/
def truthyO : Option Json → Bool
  | none => false
  | some v => truthy v

/-- Property lookup on an object; `none` models `undefined`. -/
def jLookup (j : Json) (key : String) : Option Json :=
  match j with
  | .obj fs => (fs.find? (fun kv => kv.1 = key)).map (·.2)
  | _ => none

/-- JavaScript `a || b` over possibly-missing values. -/
def jsOr (a : Option Json) (b : Json) : Json :=
  match a with
  | some v => if truthy v then v else b
  | none => b

/-- JavaScript string conversion (template-literal interpolation), with
the same depth fuel as `stringifyF`. -/
def displayF : Nat → Json → String
  | _, .null => "null"
  | _, .bool true => "true"
  | _, .bool false => "false"
  | _, .num n => toString n
  | _, .str s => s
  | 0, _ => ""
  | fuel + 1, .arr xs => commaSep (xs.map (displayF fuel))
  | _ + 1, .obj _ => "[object Object]"

def display (j : Json) : String := displayF stringifyFuel j

def digitsVal (ds : List Char) : Nat :=
  ds.foldl (fun a c => a * 10 + (c.toNat - 48)) 0

/-- JavaScript `parseInt` on a string: skip whitespace, optional sign,
then leading decimal digits; `none` models `NaN`. -/
def parseIntStr (s : String) : Option Int :=
  let cs := s.data.dropWhile isWsChar
  let (neg, cs') := match cs with
    | '-' :: r => (true, r)
    | '+' :: r => (false, r)
    | r => (false, r)
  let ds := cs'.takeWhile Char.isDigit
  if ds = [] then none
  else some ((if neg then -1 else 1) * (digitsVal ds : Int))

/-- JavaScript `parseInt` on an arbitrary value: convert to string
first, as `parseInt` does. -/
def parseIntJs (v : Json) : Option Int := parseIntStr (display v)

/-- `parseInt(x) || d`: `NaN` and `0` both fall through to the default. -/
def parseIntOr (v : Json) (d : Int) : Int :=
  match parseIntJs v with
  | some n => if n = 0 then d else n
  | none => d

-- ---------------------------------------------------------------------------
-- A JSON parser (the role of `JSON.parse` / the express json middleware).
-- Modelled subset: no escape sequences inside strings and integer
-- numbers only; every payload in this development is inside the subset.
-- ---------------------------------------------------------------------------

def skipWs (cs : List Char) : List Char := cs.dropWhile isWsChar

def lbChar : Char := Char.ofNat 123

def rbChar : Char := Char.ofNat 125

/-- Parse a JSON string body after the opening quote; returns the
content and the remainder after the closing quote. -/
def parseStrBody : List Char → Option (String × List Char)
  | [] => none
  | c :: cs =>
    if c = '"' then some ("", cs)
    else if c = '\\' then none
    else (parseStrBody cs).map (fun p => (String.mk (c :: p.1.data), p.2))

def parseDigits (cs : List Char) : Option (Nat × List Char) :=
  let ds := cs.takeWhile Char.isDigit
  if ds = [] then none else some (digitsVal ds, cs.drop ds.length)

mutual

def parseVal : Nat → List Char → Option (Json × List Char)
  | 0, _ => none
  | fuel + 1, cs =>
    match skipWs cs with
    | [] => none
    | c :: rest =>
      if c = 'n' then
        if rest.take 3 = ['u', 'l', 'l'] then some (.null, rest.drop 3) else none
      else if c = 't' then
        if rest.take 3 = ['r', 'u', 'e'] then some (.bool true, rest.drop 3) else none
      else if c = 'f' then
        if rest.take 4 = ['a', 'l', 's', 'e'] then some (.bool false, rest.drop 4) else none
      else if c = '"' then
        (parseStrBody rest).map (fun p => (.str p.1, p.2))
      else if c = '-' then
        (parseDigits rest).map (fun p => (.num (-(p.1 : Int)), p.2))
      else if c.isDigit then
        (parseDigits (c :: rest)).map (fun p => (.num (p.1 : Int), p.2))
      else if c = '[' then
        match skipWs rest with
        | ']' :: rest' => some (.arr [], rest')
        | _ => (parseElems fuel rest).map (fun p => (.arr p.1, p.2))
      else if c = lbChar then
        match skipWs rest with
        | d :: rest' =>
          if d = rbChar then some (.obj [], rest')
          else (parseMembers fuel rest).map (fun p => (.obj p.1, p.2))
        | [] => none
      else none

def parseElems : Nat → List Char → Option (List Json × List Char)
  | 0, _ => none
  | fuel + 1, cs => do
    let (v, rest) ← parseVal fuel cs
    match skipWs rest with
    | ',' :: rest' => (parseElems fuel rest').map (fun p => (v :: p.1, p.2))
    | ']' :: rest' => some ([v], rest')
    | _ => none

def parseMembers : Nat → List Char → Option (List (String × Json) × List Char)
  | 0, _ => none
  | fuel + 1, cs =>
    match skipWs cs with
    | '"' :: rest => do
      let (k, rest₁) ← parseStrBody rest
      match skipWs rest₁ with
      | ':' :: rest₂ => do
        let (v, rest₃) ← parseVal fuel rest₂
        match skipWs rest₃ with
        | ',' :: rest₄ => (parseMembers fuel rest₄).map (fun p => ((k, v) :: p.1, p.2))
        | d :: rest₄ =>
          if d = rbChar then some ([(k, v)], rest₄) else none
        | [] => none
      | _ => none
    | _ => none

end

/-- `JSON.parse` on the modelled subset: `none` is a parse error (the
middleware answers 400 before the route runs). -/
def parseJson (s : String) : Option Json :=
  match parseVal (s.data.length + 1) s.data with
  | some (j, rest) => if skipWs rest = [] then some j else none
  | none => none

-- ---------------------------------------------------------------------------
-- Association-list operations with JavaScript object / `Map` semantics:
-- an existing key is updated in place, a new key is appended.
-- ---------------------------------------------------------------------------

def lookupAssoc {α : Type} (l : List (String × α)) (k : String) : Option α :=
  (l.find? (fun kv => kv.1 = k)).map (·.2)

def setAssoc {α : Type} (l : List (String × α)) (k : String) (v : α) :
    List (String × α) :=
  match l with
  | [] => [(k, v)]
  | (k', v') :: rest =>
    if k' = k then (k, v) :: rest else (k', v') :: setAssoc rest k v

def deleteAssoc {α : Type} (l : List (String × α)) (k : String) :
    List (String × α) :=
  l.filter (fun kv => kv.1 ≠ k)

/-- `a || b` for a possibly-missing string (empty string is falsy). -/
def strOr (a : Option String) (b : String) : String :=
  match a with
  | some s => if s ≠ "" then s else b
  | none => b

/-- `a || b` keeping undefinedness: first truthy of the two. -/
def jsOrU (a b : Option Json) : Option Json :=
  if truthyO a then a else b

def parseIntOptOr (v : Option Json) (d : Int) : Int :=
  match v with
  | some x => parseIntOr x d
  | none => d

def strTake (s : String) (n : Nat) : String := String.mk (s.data.take n)

-- ---------------------------------------------------------------------------
-- Review records (the normalized shape produced by adapters / CSV import).
-- ---------------------------------------------------------------------------

/-- A normalized review record.  Non-`id` fields hold the JavaScript
values the source places there (strings in every well-formed payload);
`rating` is the number produced by the clamping arithmetic. -/
structure Review where
  id : String
  source : Json
  reviewerName : Json
  rating : Int
  reviewText : Json
  reviewDate : Json
  techName : Json
  techPhotoUrl : Json
  raw : Json

-- ---------------------------------------------------------------------------
-- ReviewStore (ingestion/store.js).  File I/O and the debounce timer are
-- real-world effects; the in-memory document and the dirty flag are
-- modelled.  `scheduleSave` only arms a timer, so a mutation's modelled
-- effect is the document update plus `dirty := true`.
-- ---------------------------------------------------------------------------

/-- The stored shape `{...review, processedAt, imageGenerated: false,
slackShared: false}`. -/
structure StoredReview where
  base : Review
  processedAt : String
  imageGenerated : Bool
  slackShared : Bool

structure StoreData where
  reviews : List (String × StoredReview)
  totalIngested : Nat
  cursors : List (String × String)
  lastPollTimes : List (String × String)

structure Store where
  data : StoreData
  dirty : Bool

def Store.hasReview (st : Store) (id : String) : Bool :=
  (lookupAssoc st.data.reviews id).isSome

/-- `addReview` — no occupancy check: the slot is assigned
unconditionally, `totalIngested` always increments.  `now` stands for
`new Date().toISOString()`. -/
def Store.addReview (st : Store) (now : String) (review : Review) : Store :=
  { data := { st.data with
      reviews := setAssoc st.data.reviews review.id
        ⟨review, now, false, false⟩,
      totalIngested := st.data.totalIngested + 1 },
    dirty := true }

structure ProcFlags where
  imageGenerated : Option Bool := none
  slackShared : Option Bool := none

def StoredReview.mergeFlags (r : StoredReview) (flags : ProcFlags) : StoredReview :=
  { r with
    imageGenerated := flags.imageGenerated.getD r.imageGenerated,
    slackShared := flags.slackShared.getD r.slackShared }

def Store.markProcessed (st : Store) (id : String) (flags : ProcFlags) : Store :=
  match lookupAssoc st.data.reviews id with
  | none => st
  | some r =>
    { data := { st.data with reviews := setAssoc st.data.reviews id (r.mergeFlags flags) },
      dirty := true }

/-- `getCursor` — `this.data.cursors[source] || null`: an absent or
empty cursor is `null` (`none`). -/
def Store.getCursor (st : Store) (source : String) : Option String :=
  match lookupAssoc st.data.cursors source with
  | some s => if s ≠ "" then some s else none
  | none => none

def Store.setCursor (st : Store) (source cursor : String) : Store :=
  { data := { st.data with cursors := setAssoc st.data.cursors source cursor },
    dirty := true }

def Store.setLastPollTime (st : Store) (now source : String) : Store :=
  { data := { st.data with lastPollTimes := setAssoc st.data.lastPollTimes source now },
    dirty := true }

-- ---------------------------------------------------------------------------
-- ReviewPipeline.process (ingestion/pipeline.js).  The render and share
-- calls are remote effects; their outcomes enter as functions of the
-- record (`renderImage(renderParams)` receives fields derived from it).
-- ---------------------------------------------------------------------------

structure ErrEntry where
  reviewId : String
  step : String
  error : String
deriving DecidableEq, Repr

structure Summary where
  new : Nat
  duplicate : Nat
  generated : Nat
  shared : Nat
  errors : List ErrEntry
deriving DecidableEq, Repr

def Summary.zero : Summary := ⟨0, 0, 0, 0, []⟩

structure ImageResult where
  buffer : List Nat
  format : String

structure PipelineOpts where
  autoGenerate : Bool
  autoShare : Bool
  hasRenderFn : Bool
  hasShareFn : Bool
  minRatingForAutoShare : Int

def processOne (opts : PipelineOpts)
    (render : Review → Except String ImageResult)
    (share : Review → Except String Unit)
    (now : String) (acc : Summary × Store) (review : Review) : Summary × Store :=
  let (res, st) := acc
  if st.hasReview review.id then
    ({ res with duplicate := res.duplicate + 1 }, st)
  else
    let st := st.addReview now review
    let res := { res with new := res.new + 1 }
    if opts.autoGenerate ∧ opts.hasRenderFn then
      match render review with
      | .ok img =>
        let st := st.markProcessed review.id { imageGenerated := some true }
        let res := { res with generated := res.generated + 1 }
        if opts.autoShare ∧ opts.hasShareFn ∧ review.rating ≥ opts.minRatingForAutoShare then
          match share review with
          | .ok _ =>
            (({ res with shared := res.shared + 1 } : Summary),
             st.markProcessed review.id { slackShared := some true })
          | .error e =>
            ({ res with errors := res.errors ++ [⟨review.id, "slack", e⟩] }, st)
        else
          let _ := img
          (res, st)
      | .error e =>
        ({ res with errors := res.errors ++ [⟨review.id, "generate", e⟩] }, st)
    else
      (res, st)

def process (opts : PipelineOpts)
    (render : Review → Except String ImageResult)
    (share : Review → Except String Unit)
    (now : String) (reviews : List Review) (st : Store) : Summary × Store :=
  reviews.foldl (processOne opts render share now) (Summary.zero, st)

-- ---------------------------------------------------------------------------
-- PollScheduler (ingestion/scheduler.js).  Timers are real time; the
-- lock map, failure counts, interval arithmetic and the `pollOnce` state
-- transition are modelled.  The remote `adapter.fetchReviews(cursor)`
-- enters as an outcome value; `pollOnce` on a held lock must not depend
-- on it.
-- ---------------------------------------------------------------------------

def DEFAULT_INTERVAL_MS : Nat := 15 * 60 * 1000

def MAX_BACKOFF_MS : Nat := 2 * 60 * 60 * 1000

/-- `(adapter.config.pollIntervalMinutes || globalIntervalMinutes || 15)
* 60 * 1000` — the first truthy of the three, not their maximum. -/
def intervalMsFor (pollIntervalMinutes globalIntervalMinutes : Option Nat) : Nat :=
  (match pollIntervalMinutes with
   | some n => if n ≠ 0 then n else
       (match globalIntervalMinutes with
        | some g => if g ≠ 0 then g else 15
        | none => 15)
   | none =>
       (match globalIntervalMinutes with
        | some g => if g ≠ 0 then g else 15
        | none => 15)) * 60 * 1000

/-- `getEffectiveInterval`: the base when no failures are recorded,
otherwise `min(base · 2^fails, MAX_BACKOFF_MS)`. -/
def getEffectiveInterval (fails : Nat) (baseMs : Nat) : Nat :=
  if fails = 0 then baseMs else min (baseMs * 2 ^ fails) MAX_BACKOFF_MS

/-- The repeating timer `start()` creates for one adapter (scheduler.js
lines 26-32): `setInterval` receives `getEffectiveInterval(name,
intervalMs)` evaluated once, at creation time, with the failure count
of that moment (zero at startup, since `start` runs before any poll);
the delay argument is stored in the timer and never re-read. -/
structure IntervalTimer where
  repeatMs : Nat
deriving DecidableEq, Repr

def startTimer (failuresAtCreation : Nat)
    (pollIntervalMinutes globalIntervalMinutes : Option Nat) : IntervalTimer :=
  ⟨getEffectiveInterval failuresAtCreation
    (intervalMsFor pollIntervalMinutes globalIntervalMinutes)⟩

/-- The delay before the next fire of an established interval timer,
given the consecutive-failure count recorded since creation: JavaScript
`setInterval` semantics — the stored creation-time delay, whatever the
current count is. -/
def nextTickInterval (t : IntervalTimer) (_currentFailures : Nat) : Nat := t.repeatMs

structure AdapterInfo where
  name : String
  enabled : Bool
deriving DecidableEq, Repr

structure SchedState where
  locks : List (String × Bool)
  failures : List (String × Nat)

inductive PollOutcome where
  | notFound
  | skipped
  | done (summary : Summary)
  | failed (msg : String)
deriving DecidableEq, Repr

/-- One full execution of `pollOnce(adapterName)`.  `fetch` is the
outcome the remote `adapter.fetchReviews(cursor)` would deliver;
`processFn` is the pipeline call.  The returned state reflects every
mutation on each exit path, including the `finally` lock release. -/
def pollOnce (adapters : List AdapterInfo) (adapterName : String)
    (fetch : Except String (List Review × Option String))
    (processFn : List Review → Store → Summary × Store)
    (now : String) (sc : SchedState) (st : Store) :
    PollOutcome × SchedState × Store :=
  match adapters.find? (fun a => a.name = adapterName) with
  | none => (.notFound, sc, st)
  | some a =>
    if ¬ a.enabled then (.notFound, sc, st)
    else if (lookupAssoc sc.locks adapterName).getD false then (.skipped, sc, st)
    else
      let sc := { sc with locks := setAssoc sc.locks adapterName true }
      match fetch with
      | .ok (reviews, newCursor) =>
        let cursor := st.getCursor adapterName
        let st :=
          match newCursor with
          | some s =>
            if s ≠ "" ∧ some s ≠ cursor then st.setCursor adapterName s else st
          | none => st
        let st := st.setLastPollTime now adapterName
        let pr := if reviews.length > 0 then processFn reviews st else (Summary.zero, st)
        let sc := { sc with failures := setAssoc sc.failures adapterName 0 }
        let sc := { sc with locks := setAssoc sc.locks adapterName false }
        (.done pr.1, sc, pr.2)
      | .error e =>
        let fails := (lookupAssoc sc.failures adapterName).getD 0 + 1
        let sc := { sc with failures := setAssoc sc.failures adapterName fails }
        let sc := { sc with locks := setAssoc sc.locks adapterName false }
        (.failed e, sc, st)

-- ---------------------------------------------------------------------------
-- Render surface (server.js): size presets, validation, template fill,
-- content-addressed LRU cache.
-- ---------------------------------------------------------------------------

def SIZE_PRESETS : List (String × Nat × Nat) :=
  [("square", 1080, 1080), ("portrait", 1080, 1350),
   ("story", 1080, 1920), ("landscape", 1200, 630)]

def DEFAULT_SIZE : String := "square"

def ALLOWED_FORMATS : List String := ["png", "jpeg"]

def MAX_TEXT_LENGTH : Nat := 2000

def MAX_NAME_LENGTH : Nat := 100

def IMAGE_CACHE_MAX : Nat := 100

def PLATFORM_ICONS : List (String × String × String × String) :=
  [("google", "G", "#4285F4", "Google Review"),
   ("yelp", "Y", "#d32323", "Yelp Review"),
   ("facebook", "f", "#1877F2", "Facebook Review"),
   ("bbb", "BBB", "#005A78", "BBB Review")]

def platformIcon (key : String) : Option (String × String × String) :=
  (PLATFORM_ICONS.find? (fun e => e.1 = key)).map (·.2)

/-- `{{NAME}}` as text (braces written through `lb`/`rb`). -/
def ph (name : String) : String := lb ++ lb ++ name ++ rb ++ rb

def isStrField : Option Json → Bool
  | some (.str _) => true
  | _ => false

def strOfField : Option Json → String
  | some (.str s) => s
  | _ => ""

def strFieldLen : Option Json → Nat
  | some (.str s) => s.data.length
  | _ => 0

def displayO : Option Json → String
  | some v => display v
  | none => "undefined"

def parseIntOpt : Option Json → Option Int
  | some v => parseIntJs v
  | none => none

/-- `validateGenerateInput(body)`: the `{field, message}` error list, in
the order the source pushes the checks. -/
def validateGenerateInput (body : Json) : List (String × String) :=
  let rn := jLookup body "reviewer_name"
  let e1 : List (String × String) :=
    if ¬ truthyO rn ∨ ¬ isStrField rn ∨ strTrim (strOfField rn) = "" then
      [("reviewer_name", "Reviewer name is required")]
    else if strFieldLen rn > MAX_NAME_LENGTH then
      [("reviewer_name", "Reviewer name must be under 100 characters")]
    else []
  let e2 : List (String × String) :=
    match parseIntOpt (jLookup body "rating") with
    | some n => if n < 1 ∨ n > 5 then [("rating", "Rating must be a number between 1 and 5")] else []
    | none => [("rating", "Rating must be a number between 1 and 5")]
  let rt := jLookup body "review_text"
  let e3 : List (String × String) :=
    if ¬ truthyO rt ∨ ¬ isStrField rt ∨ strTrim (strOfField rt) = "" then
      [("review_text", "Review text is required")]
    else if strFieldLen rt > MAX_TEXT_LENGTH then
      [("review_text", "Review text must be under 2000 characters")]
    else []
  let tn := jLookup body "tech_name"
  let e4 : List (String × String) :=
    if truthyO tn ∧ strFieldLen tn > MAX_NAME_LENGTH then
      [("tech_name", "Technician name must be under 100 characters")]
    else []
  let sz := jLookup body "size"
  let e5 : List (String × String) :=
    if truthyO sz ∧ (SIZE_PRESETS.find? (fun p => p.1 = displayO sz)).isNone then
      [("size", "Invalid size. Options: square, portrait, story, landscape")]
    else []
  let fm := jLookup body "format"
  let fmIncluded : Bool :=
    match fm with
    | some (.str s) => ALLOWED_FORMATS.contains s
    | _ => false
  let e6 : List (String × String) :=
    if truthyO fm ∧ ¬ fmIncluded then
      [("format", "Invalid format. Options: png, jpeg")]
    else []
  let src := jLookup body "source"
  let e7 : List (String × String) :=
    if truthyO src ∧ (platformIcon (displayO src)).isNone then
      [("source", "Invalid source. Options: google, yelp, facebook, bbb")]
    else []
  e1 ++ e2 ++ e3 ++ e4 ++ e5 ++ e6 ++ e7

/-- `Math.min(Math.max(parseInt(rating) || 0, 0), 5)`. -/
def filledStars (rating : Option Json) : Int :=
  min (max ((parseIntOpt rating).getD 0) 0) 5

/-- The filled-star glyph repeated `filledStars` times. -/
def starsHtml (rating : Option Json) : String :=
  String.mk (List.replicate (filledStars rating).toNat '★')

/-- A string-valued field of the render params; a missing or non-string
value reads as absent (non-string values here would throw in the
JavaScript source and are outside the model). -/
def paramStr (params : Json) (key : String) : Option String :=
  match jLookup params key with
  | some (.str s) => some s
  | _ => none

def strOrOpt (a b : Option String) : Option String :=
  match a with
  | some s => if s ≠ "" then some s else b
  | none => b

/-- `resolveAssetUrl(urlValue, baseUrl)`. -/
def resolveAssetUrl (urlValue : Option String) (baseUrl : String) : String :=
  match urlValue with
  | none => ""
  | some v =>
    if v = "" then ""
    else if strStartsWith v "http" then v
    else baseUrl ++ v

structure CompanyCfg where
  name : String
  phone : Option String := none
  brandColor : String
  brandColorDark : String
  logoUrl : Option String := none

/-- `buildPlatformBadgeHtml(source)`: empty for a falsy or unknown
platform, otherwise the badge snippet with escaped icon and label. -/
def buildPlatformBadgeHtml (source : Option Json) : String :=
  match source with
  | none => ""
  | some v =>
    if ¬ truthy v then ""
    else
      match platformIcon (display v) with
      | none => ""
      | some (icon, color, label) =>
        "<div style=\"\n    position:absolute; top:20px; right:20px;\n    display:flex; align-items:center; gap:8px;\n    background:" ++ color ++ "; color:#fff;\n    padding:8px 16px; border-radius:20px;\n    font-family:\x27Montserrat\x27,sans-serif; font-size:14px; font-weight:700;\n    letter-spacing:0.03em; z-index:10;\n  \"><span style=\"font-size:18px; font-weight:800;\">" ++
          escapeHtml icon ++ "</span> " ++ escapeHtml label ++ "</div>"

/-- The placeholder-substitution chain of `renderImage` (source order
and global/first-occurrence behaviour preserved).  `escapeHtml` is
applied exactly where the source applies it: the resolved logo URL and
the technician photo URL are substituted unescaped. -/
def fillTemplate (html : String) (params : Json) (c : CompanyCfg) (baseUrl : String) : String :=
  let effBrandColor := strOr (paramStr params "brand_color") c.brandColor
  let effBrandColorDark := strOr (paramStr params "brand_color_dark") c.brandColorDark
  let effLogoUrl := resolveAssetUrl (strOrOpt (paramStr params "logo_url") c.logoUrl) baseUrl
  let techPhotoFullUrl := resolveAssetUrl (paramStr params "tech_photo_url") baseUrl
  let hasTech := (paramStr params "tech_photo_url").getD "" ≠ "" ∧
    (paramStr params "tech_name").getD "" ≠ ""
  let isLowRating := filledStars (jLookup params "rating") ≤ 3
  let platformBadge := buildPlatformBadgeHtml (jLookup params "source")
  let s := replaceAll html (ph "BRAND_COLOR") (escapeHtml effBrandColor)
  let s := replaceAll s (ph "BRAND_COLOR_DARK") (escapeHtml effBrandColorDark)
  let s := replaceFirst s (ph "COMPANY_NAME") (escapeHtml c.name)
  let s := replaceFirst s (ph "COMPANY_PHONE") (escapeHtml (c.phone.getD ""))
  let s := replaceFirst s (ph "LOGO_URL") effLogoUrl
  let s := replaceFirst s (ph "REVIEWER_NAME") (escapeHtml ((paramStr params "reviewer_name").getD ""))
  let s := replaceFirst s (ph "REVIEW_TEXT") (escapeHtml ((paramStr params "review_text").getD ""))
  let s := replaceFirst s (ph "STARS") (starsHtml (jLookup params "rating"))
  let s := replaceFirst s (ph "TECH_PHOTO_URL") techPhotoFullUrl
  let s := replaceFirst s (ph "TECH_NAME") (escapeHtml ((paramStr params "tech_name").getD ""))
  let s := replaceAll s (ph "TECH_DISPLAY") (if hasTech then "flex" else "none")
  let s := replaceAll s (ph "LOW_RATING_CLASS") (if isLowRating then "low-rating" else "")
  replaceFirst s (ph "PLATFORM_BADGE") platformBadge

-- LRU cache and the cache phase of `renderImage`.

structure CacheEntry where
  buffer : List Nat
  format : String
deriving DecidableEq, Repr

/-- `cacheKey(params)`: SHA-256 hex over `JSON.stringify(params)` — the
object as received, with its own field order; no canonicalisation. -/
def cacheKey (params : Json) : String := sha256Hex (stringify params)

/-- `cacheGet`: `null` on absence; on presence, delete + re-insert moves
the entry to the most-recently-used end. -/
def cacheGet (cache : List (String × CacheEntry)) (k : String) :
    Option CacheEntry × List (String × CacheEntry) :=
  match lookupAssoc cache k with
  | none => (none, cache)
  | some e => (some e, deleteAssoc cache k ++ [(k, e)])

/-- `cacheSet`: evict the oldest (first) entry at capacity, then set. -/
def cacheSet (cache : List (String × CacheEntry)) (k : String) (v : CacheEntry) :
    List (String × CacheEntry) :=
  let cache :=
    if cache.length ≥ IMAGE_CACHE_MAX then
      match cache with
      | [] => []
      | _ :: rest => rest
    else cache
  setAssoc cache k v

/-- Destructuring `format = "png"`: the default fires only when the
property is absent. -/
def formatOf (params : Json) : String :=
  match jLookup params "format" with
  | some (.str s) => s
  | some v => display v
  | none => "png"

def sizeOf (params : Json) : String :=
  match jLookup params "size" with
  | some (.str s) => s
  | some v => display v
  | none => DEFAULT_SIZE

/-- `SIZE_PRESETS[size] || SIZE_PRESETS[DEFAULT_SIZE]`. -/
def dimensionsOf (params : Json) : Nat × Nat :=
  ((SIZE_PRESETS.find? (fun p => p.1 = sizeOf params)).map (·.2)).getD (1080, 1080)

structure RenderResult where
  buffer : List Nat
  format : String
  fromCache : Bool
  width : Option Nat
  height : Option Nat
deriving DecidableEq, Repr

/-- The cache phase of `renderImage`: key lookup, the hit condition
`cached && cached.format === format`, and on a miss the render (whose
browser-side outcome enters as `renderOutcome`) followed by `cacheSet`.
The returned cache reflects the recency move of `cacheGet`. -/
def renderImage (cache : List (String × CacheEntry)) (params : Json)
    (renderOutcome : Except String (List Nat)) :
    Except String RenderResult × List (String × CacheEntry) :=
  let format := formatOf params
  let key := cacheKey params
  let cg := cacheGet cache key
  let dims := dimensionsOf params
  let miss : Except String RenderResult × List (String × CacheEntry) :=
    match renderOutcome with
    | .ok buffer =>
      (.ok ⟨buffer, format, false, some dims.1, some dims.2⟩,
       cacheSet cg.2 key ⟨buffer, format⟩)
    | .error e => (.error e, cg.2)
  match cg.1 with
  | some e => if e.format = format then (.ok ⟨e.buffer, e.format, true, none, none⟩, cg.2) else miss
  | none => miss

/-- The route sets `X-Cache: HIT` exactly when `result.fromCache`. -/
def xCacheHeader (r : RenderResult) : Option String :=
  if r.fromCache then some "HIT" else none

-- ---------------------------------------------------------------------------
-- GenericAdapter.parseReviews (ingestion/adapters/generic.js).
-- ---------------------------------------------------------------------------

structure GenericCfg where
  fieldMapping : List (String × String) := []
  sourceName : Option String := none
  webhookSecret : Option String := none

/-- `this.fieldMap.X || "default_key"`. -/
def fmKey (fm : List (String × String)) (mapKey dflt : String) : String :=
  match lookupAssoc fm mapKey with
  | some s => if s ≠ "" then s else dflt
  | none => dflt

/-- `Array.isArray(rawData) ? rawData : rawData.reviews || [rawData]`;
`none` models the `TypeError` thrown by `.map` when `rawData.reviews`
is truthy but not an array. -/
def genericItems (rawData : Json) : Option (List Json) :=
  match rawData with
  | .arr l => some l
  | _ =>
    match jLookup rawData "reviews" with
    | some (.arr l) => some l
    | some v => if truthy v then none else some [rawData]
    | none => some [rawData]

/-- One item of `GenericAdapter.parseReviews`: field-mapped lookups with
camel-case fallbacks and defaults, `parseInt(...) || 5` for the rating,
and the id rule `item.id || sha256(...).slice(0, 16)` hashed over the
post-default, pre-clamp values. -/
def genericParseItem (cfg : GenericCfg) (now : String) (sourceJ : Json) (item : Json) : Review :=
  let fm := cfg.fieldMapping
  let reviewerName := jsOr (jLookup item (fmKey fm "reviewerNameField" "reviewer_name"))
    (jsOr (jLookup item "reviewerName") (.str "Unknown"))
  let rating := parseIntOptOr
    (jsOrU (jLookup item (fmKey fm "ratingField" "rating")) (jLookup item "rating")) 5
  let reviewText := jsOr (jLookup item (fmKey fm "reviewTextField" "review_text"))
    (jsOr (jLookup item "reviewText") (.str ""))
  let reviewDate := jsOr (jLookup item (fmKey fm "reviewDateField" "review_date"))
    (jsOr (jLookup item "reviewDate") (.str now))
  let techName := jsOr (jLookup item (fmKey fm "techNameField" "tech_name"))
    (jsOr (jLookup item "techName") .null)
  let techPhotoUrl := jsOr (jLookup item (fmKey fm "techPhotoUrlField" "tech_photo_url"))
    (jsOr (jLookup item "techPhotoUrl") .null)
  let idSource :=
    match jLookup item "id" with
    | some v =>
      if truthy v then display v
      else strTake (sha256Hex (display sourceJ ++ ":" ++ display reviewerName ++ ":" ++
        display reviewText ++ ":" ++ toString rating)) 16
    | none =>
      strTake (sha256Hex (display sourceJ ++ ":" ++ display reviewerName ++ ":" ++
        display reviewText ++ ":" ++ toString rating)) 16
  { id := display sourceJ ++ ":" ++ idSource,
    source := sourceJ,
    reviewerName := reviewerName,
    rating := min (max rating 1) 5,
    reviewText := reviewText,
    reviewDate := reviewDate,
    techName := techName,
    techPhotoUrl := techPhotoUrl,
    raw := item }

/-- `GenericAdapter.parseReviews(rawData)`. -/
def genericParseReviews (cfg : GenericCfg) (now : String) (rawData : Json) :
    Option (List Review) :=
  let sourceJ := jsOr (jLookup rawData "source")
    (match cfg.sourceName with
     | some s => if s ≠ "" then .str s else .str "generic"
     | none => .str "generic")
  (genericItems rawData).map (fun items => items.map (genericParseItem cfg now sourceJ))

-- ---------------------------------------------------------------------------
-- CSV import (parseCsv / parseCsvLine in ingestion/routes.js).
-- ---------------------------------------------------------------------------

/-- `parseCsvLine`: comma splitting with double-quote quoting and
doubled-quote escapes, accumulated left to right. -/
def parseCsvLineAux : List Char → Bool → List Char → List String → List String
  | [], _, cur, acc => acc ++ [String.mk cur.reverse]
  | '"' :: '"' :: rest, true, cur, acc => parseCsvLineAux rest true ('"' :: cur) acc
  | '"' :: rest, inQuotes, cur, acc => parseCsvLineAux rest (!inQuotes) cur acc
  | ',' :: rest, false, cur, acc =>
    parseCsvLineAux rest false [] (acc ++ [String.mk cur.reverse])
  | c :: rest, inQuotes, cur, acc => parseCsvLineAux rest inQuotes (c :: cur) acc

def parseCsvLine (line : String) : List String :=
  parseCsvLineAux line.data false [] []

/-- `text.split("\n")` (JavaScript `split` on a single character). -/
def splitNl (s : String) : List String :=
  (s.data.foldr
    (fun c (acc : List (List Char)) =>
      match acc with
      | cur :: rest => if c = '\n' then [] :: cur :: rest else (c :: cur) :: rest
      | [] => [[c]])
    [[]]).map String.mk

/-- Row property as a string, `"undefined"` when the column is missing —
the behaviour of `${row.x}` template interpolation. -/
def rowDisplay (row : List (String × String)) (k : String) : String :=
  (lookupAssoc row k).getD "undefined"

/-- One CSV data line mapped to a record (`vals.length < 3` rows are
skipped by the caller).  The id always hashes the raw trimmed row
values; a source-supplied id column is never consulted. -/
def csvRowToReview (headers : List String) (now : String) (vals : List String) : Review :=
  let row := headers.foldl
    (fun (acc : List (String × String) × Nat) h =>
      (setAssoc acc.1 (strTrim h) (strTrim ((vals.getD acc.2 ""))), acc.2 + 1))
    ([], 0) |>.1
  let source := strOr (lookupAssoc row "source") "import"
  let idHash := strTake (sha256Hex (source ++ ":" ++ rowDisplay row "reviewer_name" ++ ":" ++
    rowDisplay row "review_text" ++ ":" ++ rowDisplay row "rating")) 16
  { id := source ++ ":" ++ idHash,
    source := .str source,
    reviewerName := .str (strOr (lookupAssoc row "reviewer_name") "Unknown"),
    rating :=
      (let r := match lookupAssoc row "rating" with
        | some s => (match parseIntStr s with
            | some n => if n = 0 then 5 else n
            | none => 5)
        | none => 5
       min (max r 1) 5),
    reviewText := .str (strOr (lookupAssoc row "review_text") ""),
    reviewDate := .str (strOr (lookupAssoc row "review_date") now),
    techName := match lookupAssoc row "tech_name" with
      | some s => if s ≠ "" then .str s else .null
      | none => .null,
    techPhotoUrl := match lookupAssoc row "tech_photo_url" with
      | some s => if s ≠ "" then .str s else .null
      | none => .null,
    raw := .obj (row.map (fun kv => (kv.1, .str kv.2))) }

/-- `parseCsv(text)`. -/
def parseCsv (text : String) (now : String) : List Review :=
  let lines := splitNl (strTrim text)
  match lines with
  | [] => []
  | [_] => []
  | headerLine :: dataLines =>
    let headers := parseCsvLine headerLine
    (dataLines.map parseCsvLine).filterMap
      (fun vals => if vals.length < 3 then none else some (csvRowToReview headers now vals))

-- ---------------------------------------------------------------------------
-- Webhook route (POST /webhook/:source in ingestion/routes.js).
-- ---------------------------------------------------------------------------

structure AdapterModel where
  name : String
  config : GenericCfg
  parseFn : Json → Option (List Review)

/-- `req.get(a) || req.get(b) || ""`. -/
def firstTruthyStr (a b : Option String) : String :=
  strOr a (strOr b "")

inductive WebhookResp where
  | badRequest                    -- JSON middleware rejected the body
  | unauthorized                  -- `401 Invalid webhook signature`
  | accepted (summary : Summary)  -- `{accepted: true, ...results}`
  | serverError                   -- parse threw → 500
deriving Repr

/-- The webhook handler: adapter selection with generic fallback, the
optional HMAC check over `JSON.stringify(req.body)` (the re-serialised
parsed body, not the raw bytes), then parse + pipeline.  `rawBody` is
the raw request body text; `h1`/`h2` are the `x-webhook-signature` and
`x-hub-signature-256` headers. -/
def webhookPost (adapters : List AdapterModel) (generic : AdapterModel)
    (opts : PipelineOpts)
    (render : Review → Except String ImageResult)
    (share : Review → Except String Unit)
    (now : String) (source : String) (rawBody : String)
    (h1 h2 : Option String) (st : Store) : WebhookResp × Store :=
  match parseJson rawBody with
  | none => (.badRequest, st)
  | some body =>
    let adapter := (adapters.find? (fun a => a.name = source)).getD generic
    let secretCheckFails : Bool :=
      match adapter.config.webhookSecret with
      | some secret =>
        if secret ≠ "" then
          firstTruthyStr h1 h2 ≠
            "sha256=" ++ SHA256.hmacHex (strBytes secret) (strBytes (stringify body))
        else false
      | none => false
    if secretCheckFails then (.unauthorized, st)
    else
      match adapter.parseFn body with
      | none => (.serverError, st)
      | some reviews =>
        let pr := process opts render share now reviews st
        (.accepted pr.1, pr.2)

/-- The acceptance predicate of the claimed specification: the request
MUST carry (in one of the two headers) `"sha256=" + hex(HMAC-SHA256(
secret, raw_body_bytes))` computed over the RAW body bytes. -/
def specWebhookAccepts (secret : String) (rawBody : String) (h1 h2 : Option String) : Bool :=
  firstTruthyStr h1 h2 = "sha256=" ++ SHA256.hmacHex (strBytes secret) (strBytes rawBody)

-- ---------------------------------------------------------------------------
-- Concrete fixtures used by the claim theorems, witnesses and
-- counterexamples.
-- ---------------------------------------------------------------------------

def emptyStore : Store := ⟨⟨[], 0, [], []⟩, false⟩

def now0 : String := "2024-01-01T00:00:00.000Z"

def mkReview (id src name text : String) (rating : Int) (date : String) : Review :=
  { id := id, source := .str src, reviewerName := .str name, rating := rating,
    reviewText := .str text, reviewDate := .str date, techName := .null,
    techPhotoUrl := .null, raw := .null }

/-- A render response that counts as a cache hit. -/
def isHit : Except String RenderResult → Bool
  | .ok r => r.fromCache
  | .error _ => false

def opts0 : PipelineOpts := ⟨false, false, false, false, 4⟩

def optsAuto : PipelineOpts := ⟨true, true, true, true, 4⟩

def failRender : Review → Except String ImageResult := fun _ => .error "render unavailable"

def failShare : Review → Except String Unit := fun _ => .error "share unavailable"

def okRender : Review → Except String ImageResult := fun _ => .ok ⟨[9], "png"⟩

def rev5 : Review := mkReview "google:1" "google" "Jane D." "Excellent" 5 now0

def storeWith5 : Store := emptyStore.addReview now0 rev5

def rev5b : Review := mkReview "google:1" "google" "Janet" "Other" 4 now0

def pollAdapters : List AdapterInfo := [⟨"google", true⟩]

def schedLocked : SchedState := ⟨[("google", true)], []⟩

def schedFree : SchedState := ⟨[("google", false)], []⟩

/-- The status-level behaviour of `POST /generate`: validation errors
answer 400 (`Validation failed`) before any render work happens;
otherwise the render outcome decides between 200 and 500. -/
def generatePostStatus (body : Json) (renderOk : Bool) : Nat :=
  if validateGenerateInput body ≠ [] then 400
  else if renderOk then 200 else 500

/-- The raw webhook body text `\x7b"a": 1\x7d` — note the space, which
`JSON.stringify` of the parsed body does not reproduce. -/
def webhookRaw : String := lb ++ "\"a\": 1" ++ rb

/-- A registered adapter named `"x"` whose config carries
`webhook_secret = "s"` (its parse result is irrelevant to the check). -/
def xAdapter : AdapterModel := ⟨"x", { webhookSecret := some "s" }, fun _ => some []⟩

/-- The generic fallback adapter as built in ingestion/index.js with an
empty `generic` config block. -/
def genericAdapter0 : AdapterModel := ⟨"generic", {}, genericParseReviews {} now0⟩

/-- A generic-webhook payload whose single item has no `id`, no
`reviewer_name` and rating 5. -/
def c3GenericPayload : Json :=
  .obj [("source", .str "x"),
    ("reviews", .arr [.obj [("review_text", .str "T"), ("rating", .num 5)]])]

/-- A CSV import whose single row carries the same source, an empty
reviewer name, the same rating and the same text. -/
def c3CsvText : String := "source,reviewer_name,rating,review_text\nx,,5,T"

def c3GenericRecords : List Review := (genericParseReviews {} now0 c3GenericPayload).getD []

def c3CsvRecords : List Review := parseCsv c3CsvText now0

/-- A render-request body in the order a typical client sends it. -/
def renderReqA : Json :=
  .obj [("reviewer_name", .str "Jane D."), ("rating", .num 5),
    ("review_text", .str "Excellent")]

/-- The same fields in a different JSON order. -/
def renderReqB : Json :=
  .obj [("rating", .num 5), ("reviewer_name", .str "Jane D."),
    ("review_text", .str "Excellent")]

/-- Raw webhook body for an unknown source, item id supplied. -/
def c10Raw : String :=
  lb ++ "\"source\":\"zzz\",\"reviews\":[" ++ lb ++
    "\"id\":\"1\",\"reviewer_name\":\"A\",\"rating\":5,\"review_text\":\"T\"" ++ rb ++
    "]" ++ rb

def c10Body : Json :=
  .obj [("source", .str "zzz"),
    ("reviews", .arr [.obj [("id", .str "1"), ("reviewer_name", .str "A"),
      ("rating", .num 5), ("review_text", .str "T")]])]

def c10Reviews : List Review := (genericParseReviews {} now0 c10Body).getD []

end RIG

set_option maxRecDepth 100000
set_option maxHeartbeats 4000000

namespace RIG

-- ---------------------------------------------------------------------------
-- Hash sanity checks against published test vectors.
-- ---------------------------------------------------------------------------

/-- FIPS 180-4 test vector for "abc". -/
theorem sha256_abc_vector :
    sha256Hex "abc" =
      "ba7816bf8f01cfea414140de5dae2223b00361a396177a9cb410ff61f20015ad" := by
  decide

/-- RFC 4231 test case 2 (key "Jefe") for HMAC-SHA256. -/
theorem hmac_jefe_vector :
    SHA256.hmacHex (strBytes "Jefe") (strBytes "what do ya want for nothing?") =
      "5bdcc146bf60754e6a042426089575c75a003f089d2739839dec58b964ec3843" := by
  decide

-- ---------------------------------------------------------------------------
-- Association-list lemmas shared by the claims.
-- ---------------------------------------------------------------------------

theorem lookupAssoc_setAssoc_self {α : Type} (l : List (String × α)) (k : String) (v : α) :
    lookupAssoc (setAssoc l k v) k = some v := by
  induction l with
  | nil => simp [setAssoc, lookupAssoc]
  | cons hd tl ih =>
    by_cases h : hd.1 = k
    · simp [setAssoc, h, lookupAssoc]
    · simp only [setAssoc, if_neg h]
      simpa [lookupAssoc, List.find?_cons, h] using ih

theorem lookupAssoc_setAssoc_other {α : Type} (l : List (String × α)) (k k' : String) (v : α)
    (h : k' ≠ k) : lookupAssoc (setAssoc l k v) k' = lookupAssoc l k' := by
  have h' : k ≠ k' := Ne.symm h
  induction l with
  | nil => simp [setAssoc, lookupAssoc, h']
  | cons hd tl ih =>
    by_cases hk : hd.1 = k
    · have h2 : hd.1 ≠ k' := by
        rw [hk]
        exact h'
      simp [setAssoc, if_pos hk, lookupAssoc, List.find?_cons, h', h2]
    · simp only [setAssoc, if_neg hk]
      by_cases hk' : hd.1 = k'
      · simp [lookupAssoc, List.find?_cons, hk']
      · simpa [lookupAssoc, List.find?_cons, hk'] using ih

theorem lookupAssoc_deleteAssoc_append_self {α : Type} (l : List (String × α))
    (k : String) (e : α) :
    lookupAssoc (deleteAssoc l k ++ [(k, e)]) k = some e := by
  induction l with
  | nil => simp [deleteAssoc, lookupAssoc]
  | cons hd tl ih =>
    by_cases h : hd.1 = k
    · rw [show deleteAssoc (hd :: tl) k = deleteAssoc tl k by simp [deleteAssoc, h]]
      exact ih
    · rw [show deleteAssoc (hd :: tl) k = hd :: deleteAssoc tl k by simp [deleteAssoc, h]]
      rw [show lookupAssoc (hd :: deleteAssoc tl k ++ [(k, e)]) k =
        lookupAssoc (deleteAssoc tl k ++ [(k, e)]) k by
          simp [lookupAssoc, List.find?_cons, h]]
      exact ih

-- ---------------------------------------------------------------------------
-- C1 — store add on an occupied id.
-- ---------------------------------------------------------------------------

/-- C1 counterexample: `addReview` on a store that already holds the id
`"google:1"` does not fail with `Conflict` and does not leave the store
unchanged — `total_ingested` increments, the dirty flag is set, and the
existing record is overwritten by the new one. -/
theorem c1_conflict_counterexample :
    storeWith5.hasReview "google:1" = true ∧
    (storeWith5.addReview now0 rev5b).data.totalIngested =
      storeWith5.data.totalIngested + 1 ∧
    (storeWith5.addReview now0 rev5b).dirty = true ∧
    lookupAssoc (storeWith5.addReview now0 rev5b).data.reviews "google:1" =
      some ⟨rev5b, now0, false, false⟩ := by
  exact ⟨rfl, rfl, rfl, rfl⟩

/-- C1 (amended): `addReview` never fails — on every store and record,
present id or not, it assigns the slot (overwriting any existing record
with that id), increments `total_ingested` by one, and marks the store
dirty; cursors and last-poll times are untouched.  Deduplication is the
pipeline's job, which consults `hasReview` before calling `addReview`. -/
theorem c1_addReview_unconditional (st : Store) (now : String) (r : Review) :
    (st.addReview now r).data.totalIngested = st.data.totalIngested + 1 ∧
    lookupAssoc (st.addReview now r).data.reviews r.id = some ⟨r, now, false, false⟩ ∧
    (st.addReview now r).dirty = true ∧
    (st.addReview now r).data.cursors = st.data.cursors ∧
    (st.addReview now r).data.lastPollTimes = st.data.lastPollTimes := by
  exact ⟨rfl, lookupAssoc_setAssoc_self _ _ _, rfl, rfl, rfl⟩

-- ---------------------------------------------------------------------------
-- C5 — scheduler single-flight.
-- ---------------------------------------------------------------------------

/-- C5: for a registered, enabled adapter, `pollOnce` under a held
single-flight lock returns `{skipped: true}` with the scheduler state
and the store unchanged, and its result does not depend on the fetch
outcome or the pipeline at all (so of two interleaved calls only the
lock-acquiring one invokes `adapter.fetch`); with the lock free, the
lock slot reads `false` after the call on both the success path and the
exception path (the `finally` release). -/
theorem c5_single_flight (adapters : List AdapterInfo) (name : String)
    (f₁ f₂ : Except String (List Review × Option String))
    (p₁ p₂ : List Review → Store → Summary × Store)
    (now : String) (sc : SchedState) (st : Store) (a : AdapterInfo)
    (hfind : adapters.find? (fun x => x.name = name) = some a)
    (hen : a.enabled = true) :
    ((lookupAssoc sc.locks name).getD false = true →
      pollOnce adapters name f₁ p₁ now sc st = (.skipped, sc, st)) ∧
    ((lookupAssoc sc.locks name).getD false = true →
      pollOnce adapters name f₁ p₁ now sc st = pollOnce adapters name f₂ p₂ now sc st) ∧
    ((lookupAssoc sc.locks name).getD false = false →
      lookupAssoc (pollOnce adapters name f₁ p₁ now sc st).2.1.locks name = some false) := by
  refine ⟨?_, ?_, ?_⟩
  · intro hl
    unfold pollOnce
    rw [hfind]
    simp [hen, hl]
  · intro hl
    unfold pollOnce
    rw [hfind]
    simp [hen, hl]
  · intro hl
    unfold pollOnce
    rw [hfind]
    cases f₁ with
    | ok res =>
      simp only [hen, hl]
      simp only [Bool.true_eq_false, not_true, if_false, ite_false, ite_true,
        Bool.false_eq_true]
      simp [lookupAssoc_setAssoc_self]
    | error e =>
      simp only [hen, hl]
      simp only [Bool.true_eq_false, not_true, if_false, ite_false, ite_true,
        Bool.false_eq_true]
      simp [lookupAssoc_setAssoc_self]

/-- C5 witness: a held lock on `"google"` skips without state change; a
free lock ends released even when the fetch raises. -/
theorem c5_single_flight_witness :
    pollOnce pollAdapters "google" (.ok ([], none)) (fun _ s => (Summary.zero, s))
      now0 schedLocked emptyStore = (.skipped, schedLocked, emptyStore) ∧
    lookupAssoc (pollOnce pollAdapters "google" (.error "boom")
      (fun _ s => (Summary.zero, s)) now0 schedFree emptyStore).2.1.locks "google" =
      some false := by
  constructor
  · exact (c5_single_flight pollAdapters "google" (.ok ([], none)) (.ok ([], none))
      (fun _ s => (Summary.zero, s)) (fun _ s => (Summary.zero, s))
      now0 schedLocked emptyStore ⟨"google", true⟩ rfl rfl).1 rfl
  · exact (c5_single_flight pollAdapters "google" (.error "boom") (.error "boom")
      (fun _ s => (Summary.zero, s)) (fun _ s => (Summary.zero, s))
      now0 schedFree emptyStore ⟨"google", true⟩ rfl rfl).2.2 rfl

-- ---------------------------------------------------------------------------
-- C6 — scheduler intervals and backoff.
-- ---------------------------------------------------------------------------

/-- C6 counterexample: both halves of the claim fail on the code.  With
`adapter.poll_interval = 1` minute and `global_interval = 30` minutes
the repeat base is 60000 ms — the first truthy of the three values, not
`max(1 min, 30 min, 15 min) = 30 min`.  And after 2 consecutive
failures the interval applied to the next tick of the established timer
is still the creation-time 60000 ms, not `min(base · 2^2, 2 h) =
240000 ms`: `start()` evaluates `getEffectiveInterval` exactly once,
when it creates the `setInterval` timer, so backoff never reaches the
actual schedule. -/
theorem c6_base_and_backoff_counterexample :
    intervalMsFor (some 1) (some 30) = 60000 ∧
    intervalMsFor (some 1) (some 30) ≠
      max (max (1 * 60 * 1000) (30 * 60 * 1000)) DEFAULT_INTERVAL_MS ∧
    nextTickInterval (startTimer 0 (some 1) (some 30)) 2 = 60000 ∧
    nextTickInterval (startTimer 0 (some 1) (some 30)) 2 ≠
      min (60000 * 2 ^ 2) MAX_BACKOFF_MS := by
  exact ⟨rfl, by decide, rfl, by decide⟩

/-- C6 (amended): the repeat-interval base in milliseconds is the first
truthy of `adapter.poll_interval`, `global_interval`, and 15 minutes
(JavaScript `||`), not their maximum.  The helper `getEffectiveInterval`
does compute `min(base · 2^n, 2 h)` for `n ≥ 1` failures and the base
at zero, but `start()` evaluates it exactly once, when the repeating
timer is created: the established timer then fires at that
creation-time interval whatever the failure count later becomes, and
with zero failures at creation (the startup case) every subsequent tick
interval is the base — backoff is never applied to the next tick. -/
theorem c6_interval_and_backoff (a g : Option Nat) (n base fails0 : Nat) (hn : 1 ≤ n) :
    (∀ m, a = some m → m ≠ 0 → intervalMsFor a g = m * 60 * 1000) ∧
    ((a = none ∨ a = some 0) →
      ∀ m, g = some m → m ≠ 0 → intervalMsFor a g = m * 60 * 1000) ∧
    ((a = none ∨ a = some 0) → (g = none ∨ g = some 0) →
      intervalMsFor a g = DEFAULT_INTERVAL_MS) ∧
    getEffectiveInterval n base = min (base * 2 ^ n) MAX_BACKOFF_MS ∧
    getEffectiveInterval 0 base = base ∧
    nextTickInterval (startTimer fails0 a g) n =
      getEffectiveInterval fails0 (intervalMsFor a g) ∧
    nextTickInterval (startTimer 0 a g) n = intervalMsFor a g := by
  have hne : n ≠ 0 := by omega
  refine ⟨?_, ?_, ?_, ?_, ?_, rfl, ?_⟩
  · intro m hm hm0
    subst hm
    simp [intervalMsFor, hm0]
  · intro ha m hm hm0
    subst hm
    rcases ha with ha | ha <;> subst ha <;> simp [intervalMsFor, hm0]
  · intro ha hg
    rcases ha with ha | ha <;> rcases hg with hg | hg <;>
      subst ha <;> subst hg <;> simp [intervalMsFor, DEFAULT_INTERVAL_MS]
  · simp [getEffectiveInterval, hne]
  · simp [getEffectiveInterval]
  · simp [nextTickInterval, startTimer, getEffectiveInterval]

/-- C6 witness: base 60000 ms from the 1-minute adapter interval; the
helper formula at 2 failures; the established startup timer still
firing at 60000 ms after those same 2 failures. -/
theorem c6_interval_and_backoff_witness :
    intervalMsFor (some 1) (some 30) = 60000 ∧
    getEffectiveInterval 2 60000 = 240000 ∧
    getEffectiveInterval 0 60000 = 60000 ∧
    nextTickInterval (startTimer 0 (some 1) (some 30)) 2 = 60000 := by
  have h := c6_interval_and_backoff (some 1) (some 30) 2 60000 0 (by decide)
  refine ⟨?_, ?_, h.2.2.2.2.1, ?_⟩
  · have := h.1 1 rfl (by decide)
    simpa using this
  · have := h.2.2.2.1
    simpa [MAX_BACKOFF_MS] using this
  · exact (h.2.2.2.2.2.2).trans (by rfl)

-- ---------------------------------------------------------------------------
-- C7 — pipeline error isolation and the share-step label.
-- ---------------------------------------------------------------------------

/-- C7 counterexample: a share failure inside `process` is recorded with
step `"slack"`, not the claimed `"share"`. -/
theorem c7_step_label_counterexample :
    (process optsAuto okRender failShare now0 [rev5] emptyStore).1.errors =
      [⟨"google:1", "slack", "share unavailable"⟩] ∧
    (process optsAuto okRender failShare now0 [rev5] emptyStore).1.errors ≠
      [⟨"google:1", "share", "share unavailable"⟩] := by
  exact ⟨rfl, by decide⟩

/-- C7 (amended): for a fresh record with auto-generate on: a share
failure appends a single error entry with step `"slack"` and does not
block step 3's `image_generated` flag update (the flag is set before the
share attempt); a render failure appends step `"generate"` and does not
block the steps-1-2 insertion. -/
theorem c7_pipeline_error_isolation (opts : PipelineOpts)
    (render : Review → Except String ImageResult)
    (share : Review → Except String Unit) (now : String) (r : Review) (st : Store)
    (img : ImageResult) (e : String)
    (hnew : st.hasReview r.id = false)
    (hag : opts.autoGenerate = true) (hrf : opts.hasRenderFn = true)
    (has : opts.autoShare = true) (hsf : opts.hasShareFn = true)
    (hrat : r.rating ≥ opts.minRatingForAutoShare) :
    (render r = .ok img → share r = .error e →
      (process opts render share now [r] st).1.errors = [⟨r.id, "slack", e⟩] ∧
      (process opts render share now [r] st).1.new = 1 ∧
      (process opts render share now [r] st).1.generated = 1 ∧
      (lookupAssoc (process opts render share now [r] st).2.data.reviews r.id).map
        StoredReview.imageGenerated = some true) ∧
    (render r = .error e →
      (process opts render share now [r] st).1.errors = [⟨r.id, "generate", e⟩] ∧
      (process opts render share now [r] st).1.new = 1 ∧
      (lookupAssoc (process opts render share now [r] st).2.data.reviews r.id).isSome =
        true) := by
  constructor
  · intro hr hs
    have hlook : lookupAssoc (st.addReview now r).data.reviews r.id =
        some ⟨r, now, false, false⟩ := lookupAssoc_setAssoc_self _ _ _
    simp [process, processOne, hnew, hag, hrf, has, hsf, hrat, hr, hs,
      Store.markProcessed, hlook, StoredReview.mergeFlags, Store.addReview,
      lookupAssoc_setAssoc_self, Summary.zero]
  · intro hr
    simp [process, processOne, hnew, hag, hrf, hr, Store.addReview,
      lookupAssoc_setAssoc_self, Summary.zero]

/-- C7 witness: the amended behaviour at a concrete record whose share
step fails. -/
theorem c7_pipeline_error_isolation_witness :
    (process optsAuto okRender failShare now0 [rev5] emptyStore).1.new = 1 ∧
    (process optsAuto okRender failShare now0 [rev5] emptyStore).1.generated = 1 ∧
    (lookupAssoc (process optsAuto okRender failShare now0 [rev5] emptyStore).2.data.reviews
      "google:1").map StoredReview.imageGenerated = some true := by
  have h := (c7_pipeline_error_isolation optsAuto okRender failShare now0 rev5 emptyStore
    ⟨[9], "png"⟩ "share unavailable" rfl rfl rfl rfl rfl (by decide)).1 rfl rfl
  exact ⟨h.2.1, h.2.2.1, h.2.2.2⟩

-- ---------------------------------------------------------------------------
-- C9 — star clamping at render time, rating validation at generate time.
-- ---------------------------------------------------------------------------

/-- C9: the number of filled-star glyphs substituted for the STARS
placeholder equals the parsed input rating clamped to 0..5 (rating 0
gives 0 glyphs, rating 6 gives 5), while `/generate` validation rejects
any rating outside 1..5 with a `rating` error and a 400 response before
any render work, whatever the render outcome would have been. -/
theorem c9_star_clamp_and_validation
    (v : Json) (n : Int) (body : Json) (rv : Json) (m : Int) (ok : Bool)
    (hv : parseIntJs v = some n)
    (hb : jLookup body "rating" = some rv)
    (hm : parseIntJs rv = some m)
    (hout : m < 1 ∨ m > 5) :
    (starsHtml (some v)).data.length = (min (max n 0) 5).toNat ∧
    starsHtml (some (.num 0)) = "" ∧
    starsHtml (some (.num 6)) = "★★★★★" ∧
    ("rating", "Rating must be a number between 1 and 5") ∈ validateGenerateInput body ∧
    generatePostStatus body ok = 400 := by
  have hmem : ("rating", "Rating must be a number between 1 and 5") ∈
      validateGenerateInput body := by
    simp only [validateGenerateInput, hb, parseIntOpt, hm]
    rw [if_pos hout]
    simp [List.mem_append]
  refine ⟨?_, rfl, rfl, hmem, ?_⟩
  · simp [starsHtml, filledStars, parseIntOpt, hv]
  · have hne : validateGenerateInput body ≠ [] := List.ne_nil_of_mem hmem
    simp [generatePostStatus, hne]

/-- C9 witness: rating 3 renders three glyphs; the literal body
`{reviewer_name: "Test", rating: 99, review_text: "Good"}` is rejected
with a `rating` validation error and status 400. -/
theorem c9_star_clamp_and_validation_witness :
    (starsHtml (some (.num 3))).data.length = 3 ∧
    ("rating", "Rating must be a number between 1 and 5") ∈
      validateGenerateInput (.obj [("reviewer_name", .str "Test"),
        ("rating", .num 99), ("review_text", .str "Good")]) ∧
    generatePostStatus (.obj [("reviewer_name", .str "Test"),
      ("rating", .num 99), ("review_text", .str "Good")]) true = 400 := by
  have h := c9_star_clamp_and_validation (.num 3) 3
    (.obj [("reviewer_name", .str "Test"), ("rating", .num 99), ("review_text", .str "Good")])
    (.num 99) 99 true (by decide) rfl (by decide) (by decide)
  exact ⟨h.1, h.2.2.2.1, h.2.2.2.2⟩

-- ---------------------------------------------------------------------------
-- C8 — HTML escaping of substituted values.
-- ---------------------------------------------------------------------------

/-- C8 counterexample: the user-supplied `logo_url` override is
substituted into the template verbatim, although HTML-escaping it would
change it — so not every user-originated value is escaped. -/
theorem c8_logo_unescaped_counterexample :
    fillTemplate (ph "LOGO_URL") (.obj [("logo_url", .str "http://e/?q=\"<>&\x27")])
      ⟨"Co", none, "#111111", "#222222", none⟩ "http://b" = "http://e/?q=\"<>&\x27" ∧
    escapeHtml "http://e/?q=\"<>&\x27" ≠ "http://e/?q=\"<>&\x27" := by
  exact ⟨rfl, by decide⟩

/-- C8 (amended): during template substitution, reviewer_name,
review_text and tech_name (like the brand colours and company fields)
are HTML-entity-escaped for the five characters, but the user-supplied
logo_url and tech_photo_url overrides are substituted unescaped after
base-URL resolution. -/
theorem c8_escaping_coverage :
    fillTemplate (ph "REVIEWER_NAME" ++ "|" ++ ph "REVIEW_TEXT" ++ "|" ++ ph "TECH_NAME" ++
        "|" ++ ph "LOGO_URL" ++ "|" ++ ph "TECH_PHOTO_URL")
      (.obj [("reviewer_name", .str "A&B"), ("review_text", .str "<cool>"),
        ("tech_name", .str "O\x27Neil"), ("logo_url", .str "http://l/\"<"),
        ("tech_photo_url", .str "http://p/&")])
      ⟨"Co", none, "#111111", "#222222", none⟩ "http://b" =
      escapeHtml "A&B" ++ "|" ++ escapeHtml "<cool>" ++ "|" ++ escapeHtml "O\x27Neil" ++
        "|" ++ "http://l/\"<" ++ "|" ++ "http://p/&" ∧
    escapeHtml "A&B" = "A&amp;B" ∧
    escapeHtml "<cool>" = "&lt;cool&gt;" ∧
    escapeHtml "O\x27Neil" = "O&#39;Neil" := by
  exact ⟨rfl, rfl, rfl, rfl⟩

-- ---------------------------------------------------------------------------
-- C2 — webhook HMAC check.
-- ---------------------------------------------------------------------------

theorem sha256Header_ne_empty (x : String) : "sha256=" ++ x ≠ "" := by
  intro h
  have hd := congrArg String.data h
  simp [String.data_append] at hd

/-- C2 counterexample: with `webhook_secret = "s"` and raw body
`\x7b"a": 1\x7d`, the request carrying exactly the claimed header —
`"sha256=" + hex(HMAC-SHA256("s", raw_body_bytes))` — is rejected with
401 (and no state change): the route checks the HMAC against
`JSON.stringify(req.body)` = `\x7b"a":1\x7d`, not the raw bytes. -/
theorem c2_hmac_raw_body_counterexample :
    specWebhookAccepts "s" webhookRaw
      (some ("sha256=" ++ SHA256.hmacHex (strBytes "s") (strBytes webhookRaw))) none = true ∧
    webhookPost [xAdapter] genericAdapter0 opts0 failRender failShare now0 "x" webhookRaw
      (some ("sha256=" ++ SHA256.hmacHex (strBytes "s") (strBytes webhookRaw))) none
      emptyStore = (.unauthorized, emptyStore) := by
  constructor
  · simp [specWebhookAccepts, firstTruthyStr, strOr,
      sha256Header_ne_empty (SHA256.hmacHex (strBytes "s") (strBytes webhookRaw))]
  · rfl

/-- C2 (amended): when the adapter selected for `:source` carries a
webhook secret, the request is answered 401 exactly when the first
present signature header differs from `"sha256=" +
hex(HMAC-SHA256(secret, JSON.stringify(parsed_body)))` — the check runs
over the re-serialised parsed body, not the raw request bytes — and the
401 path performs no state change. -/
theorem c2_hmac_over_stringified_body
    (adapters : List AdapterModel) (generic : AdapterModel) (opts : PipelineOpts)
    (render : Review → Except String ImageResult)
    (share : Review → Except String Unit)
    (now source rawBody : String) (body : Json)
    (h1 h2 : Option String) (st : Store) (secret : String)
    (hparse : parseJson rawBody = some body)
    (hsec : ((adapters.find? (fun a => a.name = source)).getD generic).config.webhookSecret =
      some secret)
    (hne : secret ≠ "") :
    ((webhookPost adapters generic opts render share now source rawBody h1 h2 st).1 =
        .unauthorized ↔
      firstTruthyStr h1 h2 ≠
        "sha256=" ++ SHA256.hmacHex (strBytes secret) (strBytes (stringify body))) ∧
    (firstTruthyStr h1 h2 ≠
        "sha256=" ++ SHA256.hmacHex (strBytes secret) (strBytes (stringify body)) →
      webhookPost adapters generic opts render share now source rawBody h1 h2 st =
        (.unauthorized, st)) := by
  have hthen : firstTruthyStr h1 h2 ≠
      "sha256=" ++ SHA256.hmacHex (strBytes secret) (strBytes (stringify body)) →
      webhookPost adapters generic opts render share now source rawBody h1 h2 st =
        (.unauthorized, st) := by
    intro hx
    unfold webhookPost
    rw [hparse]
    simp [hsec, hne, hx]
  have helse : firstTruthyStr h1 h2 =
      "sha256=" ++ SHA256.hmacHex (strBytes secret) (strBytes (stringify body)) →
      (webhookPost adapters generic opts render share now source rawBody h1 h2 st).1 ≠
        .unauthorized := by
    intro hx
    unfold webhookPost
    rw [hparse]
    simp only [hsec]
    cases hpf : ((adapters.find? (fun a => a.name = source)).getD generic).parseFn body with
    | none => simp [hne, hx, hpf]
    | some reviews => simp [hne, hx, hpf]
  constructor
  · constructor
    · intro hres
      by_cases hx : firstTruthyStr h1 h2 =
          "sha256=" ++ SHA256.hmacHex (strBytes secret) (strBytes (stringify body))
      · exact absurd hres (helse hx)
      · exact hx
    · intro hx
      rw [hthen hx]
  · exact hthen

/-- C2 witness: the header computed over the stringified body is the
one the route accepts (no 401) for the same adapter, secret and body. -/
theorem c2_hmac_over_stringified_body_witness :
    (webhookPost [xAdapter] genericAdapter0 opts0 failRender failShare now0 "x" webhookRaw
      (some ("sha256=" ++ SHA256.hmacHex (strBytes "s")
        (strBytes (stringify (.obj [("a", .num 1)]))))) none emptyStore).1 ≠
      .unauthorized := by
  have h := (c2_hmac_over_stringified_body [xAdapter] genericAdapter0 opts0 failRender
    failShare now0 "x" webhookRaw (.obj [("a", .num 1)])
    (some ("sha256=" ++ SHA256.hmacHex (strBytes "s")
      (strBytes (stringify (.obj [("a", .num 1)]))))) none emptyStore "s"
    rfl rfl (by decide)).1
  intro hu
  apply h.mp hu
  simp [firstTruthyStr, strOr,
    sha256Header_ne_empty (SHA256.hmacHex (strBytes "s")
      (strBytes (stringify (.obj [("a", .num 1)]))))]

-- ---------------------------------------------------------------------------
-- C3 — id derivation across the generic and CSV paths.
-- ---------------------------------------------------------------------------

/-- C3 counterexample: the generic-adapter path and the CSV-import path
normalise a payload to records agreeing on every normalized field —
source, reviewer_name (defaulted to "Unknown"), rating, review_text,
review_date, tech fields — yet derive different ids: the generic hash
covers the post-default reviewer name ("Unknown") while the CSV hash
covers the raw empty cell. -/
theorem c3_equal_fields_unequal_ids_counterexample :
    c3GenericRecords.map Review.source = c3CsvRecords.map Review.source ∧
    c3GenericRecords.map Review.reviewerName = c3CsvRecords.map Review.reviewerName ∧
    c3GenericRecords.map Review.rating = c3CsvRecords.map Review.rating ∧
    c3GenericRecords.map Review.reviewText = c3CsvRecords.map Review.reviewText ∧
    c3GenericRecords.map Review.reviewDate = c3CsvRecords.map Review.reviewDate ∧
    c3GenericRecords.map Review.techName = c3CsvRecords.map Review.techName ∧
    c3GenericRecords.map Review.techPhotoUrl = c3CsvRecords.map Review.techPhotoUrl ∧
    c3GenericRecords.map Review.id ≠ c3CsvRecords.map Review.id := by
  refine ⟨rfl, rfl, rfl, rfl, rfl, rfl, rfl, by decide⟩

/-- C3 (amended): a generic-adapter record id is `<source>:<token>` with
`token` the source-supplied `item.id` when truthy, else the first 16 hex
chars of SHA-256 over `<source>:<name>:<text>:<rating>` built from the
post-default (pre-clamp) values; the CSV path hashes the raw trimmed row
values instead, so the two paths need not agree; within the pipeline,
a record is a duplicate exactly when its id equals a stored record's
key. -/
theorem c3_id_rule (cfg : GenericCfg) (now : String) (srcJ : Json) (item : Json)
    (opts : PipelineOpts) (render : Review → Except String ImageResult)
    (share : Review → Except String Unit) (r : Review) (st : Store) :
    (∀ v, jLookup item "id" = some v → truthy v = true →
      (genericParseItem cfg now srcJ item).id = display srcJ ++ ":" ++ display v) ∧
    (jLookup item "id" = none →
      (genericParseItem cfg now srcJ item).id = display srcJ ++ ":" ++
        strTake (sha256Hex (display srcJ ++ ":" ++
          display (genericParseItem cfg now srcJ item).reviewerName ++ ":" ++
          display (genericParseItem cfg now srcJ item).reviewText ++ ":" ++
          toString (parseIntOptOr (jsOrU
            (jLookup item (fmKey cfg.fieldMapping "ratingField" "rating"))
            (jLookup item "rating")) 5))) 16) ∧
    (st.hasReview r.id = true →
      (process opts render share now [r] st).1.duplicate = 1 ∧
      (process opts render share now [r] st).1.new = 0) ∧
    (st.hasReview r.id = false →
      (process opts render share now [r] st).1.new = 1) := by
  refine ⟨?_, ?_, ?_, ?_⟩
  · intro v hv htr
    simp [genericParseItem, hv, htr]
  · intro hv
    simp [genericParseItem, hv]
  · intro hdup
    constructor <;> simp [process, processOne, hdup, Summary.zero]
  · intro hnew
    by_cases hgen : opts.autoGenerate ∧ opts.hasRenderFn
    · cases hr : render r with
      | ok img =>
        by_cases hsh : opts.autoShare ∧ opts.hasShareFn ∧
            r.rating ≥ opts.minRatingForAutoShare
        · cases hs : share r with
          | ok u => simp [process, processOne, hnew, hgen, hsh, hr, hs, Summary.zero]
          | error e => simp [process, processOne, hnew, hgen, hsh, hr, hs, Summary.zero]
        · simp [process, processOne, hnew, hgen, hsh, hr, Summary.zero]
      | error e => simp [process, processOne, hnew, hgen, hr, Summary.zero]
    · simp [process, processOne, hnew, hgen, Summary.zero]

/-- C3 witness: a truthy supplied id is used verbatim; a missing id
hashes the normalized-default values; duplicate/new counting follows the
id. -/
theorem c3_id_rule_witness :
    (genericParseItem {} now0 (.str "x") (.obj [("id", .str "abc")])).id = "x:abc" ∧
    (genericParseItem {} now0 (.str "x")
      (.obj [("review_text", .str "T"), ("rating", .num 5)])).id =
      "x:" ++ strTake (sha256Hex "x:Unknown:T:5") 16 ∧
    (process opts0 failRender failShare now0 [rev5] storeWith5).1.duplicate = 1 ∧
    (process opts0 failRender failShare now0 [rev5] emptyStore).1.new = 1 := by
  have h1 := (c3_id_rule {} now0 (.str "x") (.obj [("id", .str "abc")])
    opts0 failRender failShare rev5 storeWith5).1 (.str "abc") rfl rfl
  have h2 := (c3_id_rule {} now0 (.str "x")
    (.obj [("review_text", .str "T"), ("rating", .num 5)])
    opts0 failRender failShare rev5 storeWith5).2.1 rfl
  have h3 := (c3_id_rule {} now0 (.str "x") (.obj [("id", .str "abc")])
    opts0 failRender failShare rev5 storeWith5).2.2.1 rfl
  have h4 := (c3_id_rule {} now0 (.str "x") (.obj [("id", .str "abc")])
    opts0 failRender failShare rev5 emptyStore).2.2.2 rfl
  exact ⟨h1, h2, h3.1, h4⟩

-- ---------------------------------------------------------------------------
-- C4 — render-cache key and hit condition.
-- ---------------------------------------------------------------------------

theorem lookupAssoc_cacheSet_self (c : List (String × CacheEntry)) (k : String)
    (v : CacheEntry) : lookupAssoc (cacheSet c k v) k = some v := by
  unfold cacheSet
  exact lookupAssoc_setAssoc_self _ _ _

/-- C4 counterexample: two render requests carrying identical fields in
a different JSON order — property lookups agree on every field — hash
to different cache keys (`cacheKey` hashes `JSON.stringify` of the
object as received, with no canonicalisation), and the repeat request
is not served from cache. -/
theorem c4_field_order_counterexample :
    jLookup renderReqA "reviewer_name" = jLookup renderReqB "reviewer_name" ∧
    jLookup renderReqA "rating" = jLookup renderReqB "rating" ∧
    jLookup renderReqA "review_text" = jLookup renderReqB "review_text" ∧
    cacheKey renderReqA ≠ cacheKey renderReqB ∧
    isHit ((renderImage (renderImage [] renderReqA (.ok [7])).2 renderReqB (.ok [7])).1) =
      false := by
  refine ⟨rfl, rfl, rfl, by decide, rfl⟩

/-- C4 (amended): the cache key is SHA-256 over the serialised request
as received — equal serialisations give equal keys, but field order is
significant; a lookup counts as a hit (fromCache, `X-Cache: HIT`) iff
the stored entry exists under the key and its format matches the
request's; after any successful render, an identical repeat request is
served from cache. -/
theorem c4_cache_key_and_hit (p q : Json) (cache : List (String × CacheEntry))
    (params : Json) (outcome : Except String (List Nat)) (e : CacheEntry)
    (buf : List Nat) (outcome₂ : Except String (List Nat))
    (hser : stringify p = stringify q) :
    cacheKey p = cacheKey q ∧
    (lookupAssoc cache (cacheKey params) = some e → e.format = formatOf params →
      (renderImage cache params outcome).1 = .ok ⟨e.buffer, e.format, true, none, none⟩) ∧
    (lookupAssoc cache (cacheKey params) = some e → e.format ≠ formatOf params →
      isHit (renderImage cache params outcome).1 = false) ∧
    (lookupAssoc cache (cacheKey params) = none →
      isHit (renderImage cache params outcome).1 = false) ∧
    (∃ r, (renderImage (renderImage cache params (.ok buf)).2 params outcome₂).1 = .ok r ∧
      r.fromCache = true ∧ xCacheHeader r = some "HIT") := by
  refine ⟨?_, ?_, ?_, ?_, ?_⟩
  · unfold cacheKey
    rw [hser]
  · intro hl hf
    simp only [renderImage, cacheGet]
    rw [hl]
    simp [hf]
  · intro hl hf
    simp only [renderImage, cacheGet]
    rw [hl]
    cases outcome with
    | ok b => simp [hf, isHit]
    | error err => simp [hf, isHit]
  · intro hl
    simp only [renderImage, cacheGet]
    rw [hl]
    cases outcome with
    | ok b => simp [isHit]
    | error err => simp [isHit]
  · cases hl : lookupAssoc cache (cacheKey params) with
    | none =>
      refine ⟨⟨buf, formatOf params, true, none, none⟩, ?_, rfl, rfl⟩
      have hstep : (renderImage cache params (.ok buf)).2 =
          cacheSet cache (cacheKey params) ⟨buf, formatOf params⟩ := by
        simp only [renderImage, cacheGet]
        rw [hl]
      rw [hstep]
      simp only [renderImage, cacheGet]
      rw [lookupAssoc_cacheSet_self]
      simp
    | some e₀ =>
      by_cases hf : e₀.format = formatOf params
      · refine ⟨⟨e₀.buffer, e₀.format, true, none, none⟩, ?_, rfl, rfl⟩
        have hstep : (renderImage cache params (.ok buf)).2 =
            deleteAssoc cache (cacheKey params) ++ [(cacheKey params, e₀)] := by
          simp only [renderImage, cacheGet]
          rw [hl]
          simp [hf]
        rw [hstep]
        simp only [renderImage, cacheGet]
        rw [lookupAssoc_deleteAssoc_append_self]
        simp [hf]
      · refine ⟨⟨buf, formatOf params, true, none, none⟩, ?_, rfl, rfl⟩
        have hstep : (renderImage cache params (.ok buf)).2 =
            cacheSet (deleteAssoc cache (cacheKey params) ++ [(cacheKey params, e₀)])
              (cacheKey params) ⟨buf, formatOf params⟩ := by
          simp only [renderImage, cacheGet]
          rw [hl]
          simp [hf]
        rw [hstep]
        simp only [renderImage, cacheGet]
        rw [lookupAssoc_cacheSet_self]
        simp

/-- C4 witness: the literal body `{reviewer_name: "Jane D.", rating: 5,
review_text: "Excellent"}` rendered twice — the second response comes
from cache with `X-Cache: HIT`, independently of the browser. -/
theorem c4_cache_key_and_hit_witness :
    cacheKey renderReqA = cacheKey renderReqA ∧
    (∃ r, (renderImage (renderImage [] renderReqA (.ok [7])).2 renderReqA
        (.error "browser down")).1 = .ok r ∧
      r.fromCache = true ∧ xCacheHeader r = some "HIT") := by
  have h := c4_cache_key_and_hit renderReqA renderReqA [] renderReqA (.ok [7])
    ⟨[7], "png"⟩ [7] (.error "browser down") rfl
  exact ⟨h.1, h.2.2.2.2⟩

-- ---------------------------------------------------------------------------
-- C10 — unknown webhook source falls back to the generic adapter.
-- ---------------------------------------------------------------------------

/-- C10: a webhook POST whose `:source` matches no registered adapter is
not rejected as unknown: the generic adapter (no webhook secret in its
config) parses the body and the pipeline processes the records — the
response is `accepted` with the pipeline summary, never NotFound. -/
theorem c10_unknown_source_fallback
    (adapters : List AdapterModel) (generic : AdapterModel) (opts : PipelineOpts)
    (render : Review → Except String ImageResult)
    (share : Review → Except String Unit)
    (now source rawBody : String) (body : Json) (h1 h2 : Option String)
    (st : Store) (reviews : List Review)
    (hparse : parseJson rawBody = some body)
    (hmiss : adapters.find? (fun a => a.name = source) = none)
    (hsec : generic.config.webhookSecret = none)
    (hpf : generic.parseFn body = some reviews) :
    webhookPost adapters generic opts render share now source rawBody h1 h2 st =
      (.accepted (process opts render share now reviews st).1,
       (process opts render share now reviews st).2) := by
  unfold webhookPost
  rw [hparse]
  simp [hmiss, hsec, hpf]

/-- C10 witness: the unknown source `"zzz"` with a well-formed payload
is accepted with one new record. -/
theorem c10_unknown_source_fallback_witness :
    (webhookPost [xAdapter] genericAdapter0 opts0 failRender failShare now0 "zzz"
      c10Raw none none emptyStore).1 = .accepted ⟨1, 0, 0, 0, []⟩ := by
  have h := c10_unknown_source_fallback [xAdapter] genericAdapter0 opts0 failRender
    failShare now0 "zzz" c10Raw c10Body none none emptyStore c10Reviews rfl rfl rfl rfl
  exact (congrArg Prod.fst h).trans (by rfl)

end RIG
